import Mathlib

/-!
Shallow embedding of the chess engine core of this repository.

Sources embedded (paths relative to the repository root):
* model/src/game.rs            — `ChessGame`, move application, validity, score
* model/src/game/moves.rs      — bitboard move generator `update_move_container`
* model/src/game/attacks.rs    — attacked-squares generator
* model/src/game_constructor.rs — `empty`, `standard_game`
* src/model/chess_type.rs      — `Type` and `Type::score`
* src/model/game/precomputation.rs — pawn / knight / king attack masks
* engine/src/alpha_beta.rs     — `AlphaBetaEngine::alpha_beta_search`
* engine/src/engine.rs (old layout src/engine/engine.rs) — `SearchResult`

Machine integers: Rust `u64` bitboards are embedded as `Nat`; square indices
(`ChessPosition = i8` in the source) as `Int` so that the source's signed
arithmetic (negative motions, `from - 4`, truncated division and remainder)
is represented exactly.  Bit accesses outside `0..64` would panic in a debug
build of the source; the embedding makes them total by returning `false`
(for reads) or the unchanged board (for writes).  Those indices are never
reached from well-formed positions.
-/

namespace Chess

/-- Number of set bits among the 64 bits of a `u64` (Rust `count_ones`). -/
def popcount (b : Nat) : Nat :=
  ∑ i ∈ Finset.range 64, if b.testBit i then 1 else 0

/-- Rust macro `is_set!(a, at)`: `((a >> at) & 1) == 1`.  Index is signed in
the source; out-of-range indices (which would panic in Rust debug builds)
read as `false`. -/
def is_set (b : Nat) (i : Int) : Bool :=
  decide (0 ≤ i) && b.testBit i.toNat

/-- Rust macro `set_at!(a, b)`: `a |= 1 << b` (guarded against the
out-of-range panic). -/
def set_at (b : Nat) (i : Int) : Nat :=
  if 0 ≤ i ∧ i < 64 then b ||| (1 <<< i.toNat) else b

/-- Rust macro `clear_at!(a, b)`: `a &= !(1 << b)` (guarded as above). -/
def clear_at (b : Nat) (i : Int) : Nat :=
  if 0 ≤ i ∧ i < 64 then
    (if b.testBit i.toNat then b - (1 <<< i.toNat) else b)
  else b

/-- Bitwise complement of a `u64` (`!w` in Rust). -/
def compl64 (w : Nat) : Nat := w ^^^ (2 ^ 64 - 1)

/-- Rust macro `pieces_for_color!(whites, pieces, white_playing)`.
The macro body is not present in the snapshot; its expansion is fixed by the
identical inline computation in the old `update_move_container`
(`pieces & whites` for white, `pieces & !whites` for black). -/
def pieces_for_color (whites pieces : Nat) (white : Bool) : Nat :=
  if white then pieces &&& whites else pieces &&& compl64 whites

/-- The indices of the set bits of a `u64`, in increasing order: the
iteration order of the `consume_bits!` macro (repeated `trailing_zeros`). -/
def bitIndices (b : Nat) : List Nat :=
  (List.range 64).filter (fun i => b.testBit i)

/-- Piece types (source enum `Type` in `chess_type.rs`; `Type` is reserved
in Lean). -/
inductive PieceType where
  | Pawn | Bishop | Knight | Rook | Queen | King
deriving DecidableEq

/-- `Type::score` from `src/model/chess_type.rs`. -/
def PieceType.score : PieceType → Int
  | .Pawn => 1
  | .Bishop => 3
  | .Knight => 3
  | .Rook => 5
  | .Queen => 9
  | .King => 10000

/-- Move-quality tags, from highest to lowest ordering rank.
Modelled from the spec: the model crate's `moves.rs` is not in the snapshot;
the spec fixes the closed set and its total order
`Principal > KillerMove > GoodCapture > EqualCapture > LowCapture > Motion`. -/
inductive MoveQuality where
  | Principal | KillerMove | GoodCapture | EqualCapture | LowCapture | Motion
deriving DecidableEq

/-- Ordering rank of a quality (higher pops first from the move container).
Modelled from the spec ordering. -/
def MoveQuality.rank : MoveQuality → Nat
  | .Principal => 5
  | .KillerMove => 4
  | .GoodCapture => 3
  | .EqualCapture => 2
  | .LowCapture => 1
  | .Motion => 0

/-- A move (source struct `Move`; `from` is reserved in Lean, hence
`fromSq` / `toSq`). -/
structure Move where
  fromSq : Int
  toSq : Int
  isWhite : Bool
  quality : MoveQuality
deriving DecidableEq

/-- `Move::new`: quality defaults to `Motion`. -/
def Move.new (f t : Int) (w : Bool) : Move :=
  ⟨f, t, w, .Motion⟩

/-- `Move::set_quality`. -/
def Move.set_quality (m : Move) (q : MoveQuality) : Move :=
  { m with quality := q }

/-- `Move::set_quality_from_scores(attacker, victim)`.
Modelled from the spec: the method body is missing from the snapshot; the
spec's MVV-LVA mapping compares the material values of attacker and victim:
`a < v` gives GoodCapture, `a = v` EqualCapture, `a > v` LowCapture. -/
def Move.set_quality_from_scores (m : Move) (attacker victim : PieceType) : Move :=
  if attacker.score < victim.score then m.set_quality .GoodCapture
  else if attacker.score = victim.score then m.set_quality .EqualCapture
  else m.set_quality .LowCapture

/-- `Move::is_capture`.  Modelled from the spec: true exactly for the three
capture qualities. -/
def Move.is_capture (m : Move) : Bool :=
  match m.quality with
  | .GoodCapture | .EqualCapture | .LowCapture => true
  | _ => false

/-- `Move::get_direction_increment` (from `moves.rs`): the unit step used to
walk the squares between `from` and `to`.  Rust `%` is truncated remainder
(`Int.tmod`). -/
def Move.get_direction_increment (m : Move) : Int :=
  let diff := m.toSq - m.fromSq
  let remain := Int.tmod m.fromSq 8
  let lo := m.fromSq - remain
  let hi := m.fromSq + (7 - remain)
  if lo ≤ m.toSq ∧ m.toSq ≤ hi then
    (if 0 < diff then 1 else -1)
  else if Int.tmod diff 8 = 0 then
    (if 0 < diff then 8 else -8)
  else if Int.tmod diff 9 = 0 then
    (if 0 < diff then 9 else -9)
  else if Int.tmod diff 7 = 0 then
    (if 0 < diff then 7 else -7)
  else 0

/-- The position (source struct `ChessGame` in `model/src/game.rs`).

The snapshot's `game.rs` declares eight `u64` fields; the generator in
`model/src/game/moves.rs` additionally reads `self.en_passant_target`, a
field that only exists in the commit the generator comes from.  The
embedding carries that ninth board so the generator can be translated
verbatim; every constructor in the snapshot leaves it at zero. -/
structure ChessGame where
  whites : Nat
  pawns : Nat
  bishops : Nat
  knights : Nat
  rooks : Nat
  queens : Nat
  kings : Nat
  flags : Nat
  en_passant_target : Nat
deriving DecidableEq

/-- `ChessGame::new` (the snapshot's constructor takes the eight boards;
the en-passant board starts at zero). -/
def ChessGame.new (whites pawns bishops knights rooks queens kings flags : Nat) :
    ChessGame :=
  ⟨whites, pawns, bishops, knights, rooks, queens, kings, flags, 0⟩

def FLAG_WK_MOVED : Int := 0
def FLAG_BK_MOVED : Int := 1
def FLAG_WK_CASTLED : Int := 2
def FLAG_BK_CASTLED : Int := 3

/-- `ChessGame::type_at_index` (note the source tests `kings` before
`queens`). -/
def ChessGame.type_at_index (g : ChessGame) (i : Int) : Option PieceType :=
  if is_set g.pawns i then some .Pawn
  else if is_set g.bishops i then some .Bishop
  else if is_set g.knights i then some .Knight
  else if is_set g.rooks i then some .Rook
  else if is_set g.kings i then some .King
  else if is_set g.queens i then some .Queen
  else none

/-- `ChessGame::has_piece_at`. -/
def ChessGame.has_piece_at (g : ChessGame) (i : Int) : Bool :=
  is_set (g.pawns ||| g.bishops ||| g.knights ||| g.rooks ||| g.queens ||| g.kings) i

/-- `ChessGame::is_finished`: one of the two kings is gone. -/
def ChessGame.is_finished (g : ChessGame) : Bool :=
  popcount g.kings != 2

/-- The occupancy union used throughout `moves.rs` and `attacks.rs`
(`rooks | kings | queens | pawns | bishops | knights`). -/
def ChessGame.occupancy (g : ChessGame) : Nat :=
  g.rooks ||| g.kings ||| g.queens ||| g.pawns ||| g.bishops ||| g.knights

/-- `ChessGame::apply_capture`: clear every board at `m.to`. -/
def ChessGame.apply_capture (g : ChessGame) (m : Move) : ChessGame :=
  { g with
    pawns := clear_at g.pawns m.toSq
    bishops := clear_at g.bishops m.toSq
    rooks := clear_at g.rooks m.toSq
    knights := clear_at g.knights m.toSq
    queens := clear_at g.queens m.toSq
    kings := clear_at g.kings m.toSq
    whites := clear_at g.whites m.toSq }

/-- `ChessGame::apply_move_unsafe`. -/
def ChessGame.apply_move_unsafe (g : ChessGame) (m : Move) : ChessGame :=
  match g.type_at_index m.fromSq with
  | none => g
  | some t =>
    let g1 := g.apply_capture m
    let g2 :=
      match t with
      | .Pawn =>
        let g' := { g1 with pawns := clear_at g1.pawns m.fromSq }
        -- promotion handled directly here
        if Int.tdiv m.toSq 8 = 7 ∨ Int.tdiv m.toSq 8 = 0 then
          { g' with queens := set_at g'.queens m.toSq }
        else
          { g' with pawns := set_at g'.pawns m.toSq }
      | .Bishop =>
        { g1 with bishops := set_at (clear_at g1.bishops m.fromSq) m.toSq }
      | .Knight =>
        { g1 with knights := set_at (clear_at g1.knights m.fromSq) m.toSq }
      | .Rook =>
        { g1 with rooks := set_at (clear_at g1.rooks m.fromSq) m.toSq }
      | .Queen =>
        { g1 with queens := set_at (clear_at g1.queens m.fromSq) m.toSq }
      | .King =>
        let g' := { g1 with kings := set_at (clear_at g1.kings m.fromSq) m.toSq }
        let g' :=
          if m.isWhite then { g' with flags := set_at g'.flags FLAG_WK_MOVED }
          else { g' with flags := set_at g'.flags FLAG_BK_MOVED }
        let motion := m.toSq - m.fromSq
        if motion = 2 ∨ motion = -2 then
          let g' :=
            if m.isWhite then { g' with flags := set_at g'.flags FLAG_WK_CASTLED }
            else { g' with flags := set_at g'.flags FLAG_BK_CASTLED }
          let rookFrom := if motion = 2 then m.fromSq + 3 else m.fromSq - 4
          let rookTo := if motion = 2 then m.fromSq + 1 else m.fromSq - 1
          let g' := { g' with rooks := set_at (clear_at g'.rooks rookFrom) rookTo }
          if m.isWhite then
            { g' with whites := set_at (clear_at g'.whites rookFrom) rookTo }
          else g'
        else g'
    if m.isWhite then
      { g2 with whites := set_at (clear_at g2.whites m.fromSq) m.toSq }
    else g2

/-- White pawn attack mask per square (from `pawn_attacks` in
`src/model/game/precomputation.rs`). -/
def pawnAttackMaskWhite (sq : Nat) : Nat :=
  let rank := sq / 8
  let file := sq % 8
  if rank < 7 then
    (if 0 < file then 1 <<< (sq + 7) else 0) |||
      (if file < 7 then 1 <<< (sq + 9) else 0)
  else 0

/-- Black pawn attack mask per square (same source). -/
def pawnAttackMaskBlack (sq : Nat) : Nat :=
  let rank := sq / 8
  let file := sq % 8
  if 0 < rank then
    (if 0 < file then 1 <<< (sq - 9) else 0) |||
      (if file < 7 then 1 <<< (sq - 7) else 0)
  else 0

/-- The pawn attack mask for the given side (`PAWN_ATTACK_MASKS`). -/
def pawnAttackMask (white : Bool) (sq : Nat) : Nat :=
  if white then pawnAttackMaskWhite sq else pawnAttackMaskBlack sq

/-- Fold a list of (rank, file) offsets into a mask, discarding off-board
results by rank/file bounds (`knight_attacks` / `king_attacks` in
`precomputation.rs`). -/
def offsetMask (sq : Nat) (offs : List (Int × Int)) : Nat :=
  offs.foldl
    (fun mask rf =>
      let r : Int := (sq / 8 : Nat) + rf.1
      let f : Int := (sq % 8 : Nat) + rf.2
      if 0 ≤ r ∧ r < 8 ∧ 0 ≤ f ∧ f < 8 then
        mask ||| (1 <<< (r * 8 + f).toNat)
      else mask)
    0

/-- `KNIGHT_ATTACK_MASKS`. -/
def knightAttackMask (sq : Nat) : Nat :=
  offsetMask sq [(2, 1), (2, -1), (-2, 1), (-2, -1), (1, 2), (1, -2), (-1, 2), (-1, -2)]

/-- `KING_ATTACK_MASKS`. -/
def kingAttackMask (sq : Nat) : Nat :=
  offsetMask sq [(0, 1), (1, 1), (1, 0), (1, -1), (0, -1), (-1, -1), (-1, 0), (-1, 1)]

/-- Unit (rank, file) step of sliding direction `dir`.
Modelled from the spec: the 8-direction `SLIDING_ATTACK_MASKS` table of the
generator's commit is not in the snapshot; the spec fixes the direction
order N, S, E, W, NE, NW, SE, SW (the snapshot's 4-direction table agrees
on N, S, E, W). -/
def dirStep : Nat → Int × Int
  | 0 => (1, 0)
  | 1 => (-1, 0)
  | 2 => (0, 1)
  | 3 => (0, -1)
  | 4 => (1, 1)
  | 5 => (1, -1)
  | 6 => (-1, 1)
  | _ => (-1, -1)

/-- `SLIDING_ATTACK_MASKS[dir][sq]`: the ordered list of squares reached by
stepping in direction `dir` from `sq` until the board edge, nearest first. -/
def slidingRay (dir sq : Nat) : List Int :=
  let d := dirStep dir
  (List.range 7).filterMap
    (fun k =>
      let r : Int := (sq / 8 : Nat) + (k + 1) * d.1
      let f : Int := (sq % 8 : Nat) + (k + 1) * d.2
      if 0 ≤ r ∧ r < 8 ∧ 0 ≤ f ∧ f < 8 then some (r * 8 + f) else none)

/-- Walk one precomputed ray and accumulate attacked squares, stopping at
(and including) the first occupied square
(`get_attacked_squares_from_sliding_piece` inner loop in `attacks.rs`). -/
def rayAttackBits (occupancy : Nat) : List Int → Nat
  | [] => 0
  | p :: rest =>
    let here := set_at 0 p
    if is_set occupancy p then here else here ||| rayAttackBits occupancy rest

/-- Squares attacked by the sliding pieces in `pieces` along the given
direction indices (`get_attacked_squares_from_sliding_piece`). -/
def ChessGame.attacksFromSliding (g : ChessGame) (pieces : Nat) (dirs : List Nat) : Nat :=
  (bitIndices pieces).foldl
    (fun acc sq =>
      dirs.foldl (fun acc dir => acc ||| rayAttackBits g.occupancy (slidingRay dir sq)) acc)
    0

/-- `get_attacked_squares_pawn`. -/
def ChessGame.get_attacked_squares_pawn (g : ChessGame) (white : Bool) : Nat :=
  (bitIndices (pieces_for_color g.whites g.pawns white)).foldl
    (fun acc sq => acc ||| pawnAttackMask white sq) 0

/-- `get_attacked_squares_knight`. -/
def ChessGame.get_attacked_squares_knight (g : ChessGame) (white : Bool) : Nat :=
  (bitIndices (pieces_for_color g.whites g.knights white)).foldl
    (fun acc sq => acc ||| knightAttackMask sq) 0

/-- `get_attacked_squares_king`. -/
def ChessGame.get_attacked_squares_king (g : ChessGame) (white : Bool) : Nat :=
  (bitIndices (pieces_for_color g.whites g.kings white)).foldl
    (fun acc sq => acc ||| kingAttackMask sq) 0

/-- `get_attacked_squares_rook` (directions 0..4). -/
def ChessGame.get_attacked_squares_rook (g : ChessGame) (white : Bool) : Nat :=
  g.attacksFromSliding (pieces_for_color g.whites g.rooks white) [0, 1, 2, 3]

/-- `get_attacked_squares_bishop` (directions 4..8). -/
def ChessGame.get_attacked_squares_bishop (g : ChessGame) (white : Bool) : Nat :=
  g.attacksFromSliding (pieces_for_color g.whites g.bishops white) [4, 5, 6, 7]

/-- `get_attacked_squares_queen` (directions 0..8). -/
def ChessGame.get_attacked_squares_queen (g : ChessGame) (white : Bool) : Nat :=
  g.attacksFromSliding (pieces_for_color g.whites g.queens white)
    [0, 1, 2, 3, 4, 5, 6, 7]

/-- `get_attacked_squares`: union of the six contributions. -/
def ChessGame.get_attacked_squares (g : ChessGame) (white : Bool) : Nat :=
  g.get_attacked_squares_bishop white ||| g.get_attacked_squares_knight white |||
    g.get_attacked_squares_king white ||| g.get_attacked_squares_pawn white |||
    g.get_attacked_squares_queen white ||| g.get_attacked_squares_rook white

/-- The `while current_pos != m.to` walk of `is_move_over_free_squares`.
`fuel` bounds the walk; with a nonzero increment the walk always reaches
`m.to` in at most 63 steps, and with increment 0 the first iteration tests
the mover's own square (occupied in every calling context, so the source
returns `false` there; on the unreachable empty-square case the source
diverges and the model returns `true` when the fuel runs out). -/
def freeWalk (g : ChessGame) (target step : Int) : Nat → Int → Bool
  | 0, _ => true
  | fuel + 1, cur =>
    if cur = target then true
    else if g.has_piece_at cur then false
    else freeWalk g target step fuel (cur + step)

/-- `ChessGame::is_move_over_free_squares`. -/
def ChessGame.is_move_over_free_squares (g : ChessGame) (m : Move) : Bool :=
  let direction := m.get_direction_increment
  freeWalk g m.toSq direction 64 (m.fromSq + direction)

/-- `ChessGame::is_pawn_move_valid`. -/
def ChessGame.is_pawn_move_valid (g : ChessGame) (m : Move) : Bool :=
  if (m.isWhite ∧ Int.tdiv m.toSq 8 < Int.tdiv m.fromSq 8) ∨
      (¬m.isWhite ∧ Int.tdiv m.fromSq 8 < Int.tdiv m.toSq 8) then false
  else if m.toSq = m.fromSq + 16 ∧ Int.tdiv m.fromSq 8 ≠ 1 then false
  else if m.toSq + 16 = m.fromSq ∧ Int.tdiv m.fromSq 8 ≠ 6 then false
  else if g.has_piece_at m.toSq then
    decide (Int.tmod m.fromSq 8 ≠ Int.tmod m.toSq 8)
  else if Int.tmod m.fromSq 8 ≠ Int.tmod m.toSq 8 then false
  else
    let motion := m.toSq - m.fromSq
    decide (motion = 8 ∨ motion = -8 ∨ motion = -16 ∨ motion = 16)

/-- `ChessGame::is_king_move_valid` (including the castling conditions). -/
def ChessGame.is_king_move_valid (g : ChessGame) (m : Move) : Bool :=
  let motion := m.toSq - m.fromSq
  if motion = 2 ∨ motion = -2 then
    if (m.isWhite ∧ is_set g.flags FLAG_WK_MOVED) ∨
        (¬m.isWhite ∧ is_set g.flags FLAG_BK_MOVED) then false
    else if 0 < motion ∧ ¬is_set g.rooks (m.fromSq + 3) then false
    else if ¬(0 < motion) ∧ ¬is_set g.rooks (m.fromSq - 4) then false
    else
      let positions_to_check :=
        if 0 < motion then [m.fromSq + 1, m.fromSq + 2]
        else [m.fromSq - 1, m.fromSq - 2, m.fromSq - 3]
      let occupancy := g.rooks ||| g.kings ||| g.queens ||| g.pawns |||
        g.bishops ||| g.knights
      if positions_to_check.any (fun p => is_set occupancy p) then false
      else
        let attacked := g.get_attacked_squares (!m.isWhite)
        if positions_to_check.any (fun p => is_set attacked p) then false
        else true
  else
    decide (motion = 1 ∨ motion = -1 ∨ motion = 8 ∨ motion = -8 ∨
      motion = 7 ∨ motion = -7 ∨ motion = 9 ∨ motion = -9)

/-- `ChessGame::is_bishop_valid`. -/
def isBishopValid (motion x1 y1 x2 y2 : Int) : Bool :=
  if Int.tmod motion 7 = 0 then
    (if 0 < motion then decide (x2 < x1 ∧ y1 < y2) else decide (x1 < x2 ∧ y2 < y1))
  else if Int.tmod motion 9 = 0 then
    (if 0 < motion then decide (x1 < x2 ∧ y1 < y2) else decide (x2 < x1 ∧ y2 < y1))
  else false

/-- `ChessGame::is_rook_valid`. -/
def isRookValid (motion : Int) (m : Move) : Bool :=
  let remain := Int.tmod m.fromSq 8
  let lo := m.fromSq - remain
  let hi := m.fromSq + (7 - remain)
  if lo ≤ m.toSq ∧ m.toSq ≤ hi then true else decide (Int.tmod motion 8 = 0)

/-- `ChessGame::is_destination_of_incorrect_color`. -/
def ChessGame.is_destination_of_incorrect_color (g : ChessGame) (m : Move) : Bool :=
  g.has_piece_at m.toSq && (is_set g.whites m.toSq == is_set g.whites m.fromSq)

/-- `ChessGame::is_move_valid_for_type`. -/
def ChessGame.is_move_valid_for_type (g : ChessGame) (m : Move) (t : PieceType) : Bool :=
  if g.is_destination_of_incorrect_color m then false
  else if ¬(t = .Knight ∨ t = .King ∨ g.is_move_over_free_squares m) then false
  else
    let motion := m.toSq - m.fromSq
    let x1 := Int.tmod m.fromSq 8
    let y1 := Int.tdiv m.fromSq 8
    let x2 := Int.tmod m.toSq 8
    let y2 := Int.tdiv m.toSq 8
    match t with
    | .Pawn => g.is_pawn_move_valid m
    | .Bishop => isBishopValid motion x1 y1 x2 y2
    | .Rook => isRookValid motion m
    | .Queen => isBishopValid motion x1 y1 x2 y2 || isRookValid motion m
    | .Knight =>
      if motion = 17 ∨ motion = 10 then decide (x1 < x2 ∧ y1 < y2)
      else if motion = 15 ∨ motion = 6 then decide (x2 < x1 ∧ y1 < y2)
      else if motion = -10 ∨ motion = -17 then decide (x2 < x1 ∧ y2 < y1)
      else if motion = -15 ∨ motion = -6 then decide (x1 < x2 ∧ y2 < y1)
      else false
    | .King => g.is_king_move_valid m

/-- `ChessGame::is_move_valid`. -/
def ChessGame.is_move_valid (g : ChessGame) (m : Move) : Bool :=
  match g.type_at_index m.fromSq with
  | some t => g.is_move_valid_for_type m t
  | none => false

/-- `ChessGame::apply_move_safe`: apply only after the validity check;
returns whether the move was applied, together with the resulting state. -/
def ChessGame.apply_move_safe (g : ChessGame) (m : Move) : Bool × ChessGame :=
  if g.is_move_valid m then (true, g.apply_move_unsafe m) else (false, g)

/-- Knight phase of `update_move_container` (`moves.rs`, step 1): per knight
of the side, per target of the knight mask, a `Motion` to empty squares and
an MVV-LVA-stamped capture of opposite-colored occupants. -/
def ChessGame.knightMoves (g : ChessGame) (white : Bool) : List Move :=
  (bitIndices (pieces_for_color g.whites g.knights white)).flatMap
    (fun f =>
      (bitIndices (knightAttackMask f)).flatMap
        (fun t =>
          let occupied := is_set g.occupancy (t : Int)
          if !occupied then [Move.new f t white]
          else if is_set g.whites (t : Int) != white then
            let m := Move.new f t white
            match g.type_at_index (t : Int) with
            | some captured => [m.set_quality_from_scores .Knight captured]
            | none => [m]
          else []))

/-- King phase (`moves.rs`, step 2): like the knight phase, but every king
capture is stamped `EqualCapture`. -/
def ChessGame.kingMoves (g : ChessGame) (white : Bool) : List Move :=
  (bitIndices (pieces_for_color g.whites g.kings white)).flatMap
    (fun f =>
      (bitIndices (kingAttackMask f)).flatMap
        (fun t =>
          let occupied := is_set g.occupancy (t : Int)
          if !occupied then [Move.new f t white]
          else if is_set g.whites (t : Int) != white then
            [(Move.new f t white).set_quality .EqualCapture]
          else []))

/-- Pawn attack phase (`moves.rs`, step 3.a): a diagonal move is emitted as
a `GoodCapture` when the target holds an opponent, or when the target is
empty but flagged in the en-passant board. -/
def ChessGame.pawnCaptureMoves (g : ChessGame) (white : Bool) : List Move :=
  (bitIndices (pieces_for_color g.whites g.pawns white)).flatMap
    (fun f =>
      (bitIndices (pawnAttackMask white f)).flatMap
        (fun t =>
          let occupied := is_set g.occupancy (t : Int)
          if occupied && (is_set g.whites (t : Int) != white) then
            [(Move.new f t white).set_quality .GoodCapture]
          else if !occupied && is_set g.en_passant_target (t : Int) then
            [(Move.new f t white).set_quality .GoodCapture]
          else []))

/-- Pawn motion phase (`moves.rs`, step 3.b): single pushes to an empty
square ahead, plus double pushes from the starting rank across two empty
squares. -/
def ChessGame.pawnPushMoves (g : ChessGame) (white : Bool) : List Move :=
  (bitIndices (pieces_for_color g.whites g.pawns white)).flatMap
    (fun f =>
      let single :=
        if white then
          (if ¬is_set g.occupancy ((f : Int) + 8) then
            [Move.new f ((f : Int) + 8) white] else [])
        else
          (if ¬is_set g.occupancy ((f : Int) - 8) then
            [Move.new f ((f : Int) - 8) white] else [])
      let rank := f / 8
      let dbl :=
        if white ∧ rank = 1 ∧ ¬is_set g.occupancy ((f : Int) + 8) ∧
            ¬is_set g.occupancy ((f : Int) + 16) then
          [Move.new f ((f : Int) + 16) white]
        else if ¬white ∧ rank = 6 ∧ ¬is_set g.occupancy ((f : Int) - 8) ∧
            ¬is_set g.occupancy ((f : Int) - 16) then
          [Move.new f ((f : Int) - 16) white]
        else []
      single ++ dbl)

/-- One ray of `fill_attacked_squares_from_sliding_piece`: `Motion` to each
empty square; on the first occupied square, a stamped capture if the
occupant is opposite-colored; stop either way. -/
def ChessGame.rayMoves (g : ChessGame) (white : Bool) (t : PieceType) (f : Nat) :
    List Int → List Move
  | [] => []
  | p :: rest =>
    let occupied := is_set g.occupancy p
    if !occupied then Move.new f p white :: g.rayMoves white t f rest
    else if is_set g.whites p != white then
      let m := Move.new f p white
      match g.type_at_index p with
      | some captured => [m.set_quality_from_scores t captured]
      | none => [m]
    else []

/-- `fill_attacked_squares_from_sliding_piece`. -/
def ChessGame.slidingMoves (g : ChessGame) (pieces : Nat) (t : PieceType)
    (dirs : List Nat) (white : Bool) : List Move :=
  (bitIndices pieces).flatMap
    (fun f => dirs.flatMap (fun dir => g.rayMoves white t f (slidingRay dir f)))

/-- White castling phase (`moves.rs`, step 7): pushed only when white is the
side to move and the white king-moved flag is clear. -/
def ChessGame.whiteCastleMoves (g : ChessGame) : List Move :=
  if ¬is_set g.flags FLAG_WK_MOVED then
    (if ¬is_set g.occupancy 5 ∧ ¬is_set g.occupancy 6 then
      (let attacked := g.get_attacked_squares false
       if ¬is_set attacked 4 ∧ ¬is_set attacked 5 ∧ ¬is_set attacked 6 then
         [Move.new 4 6 true]
       else [])
    else []) ++
    (if ¬is_set g.occupancy 3 ∧ ¬is_set g.occupancy 2 ∧ ¬is_set g.occupancy 1 then
      (let attacked := g.get_attacked_squares false
       if ¬is_set attacked 4 ∧ ¬is_set attacked 3 ∧ ¬is_set attacked 2 then
         [Move.new 4 2 true]
       else [])
    else [])
  else []

/-- Black castling phase (`moves.rs`, step 7). -/
def ChessGame.blackCastleMoves (g : ChessGame) : List Move :=
  if ¬is_set g.flags FLAG_BK_MOVED then
    (if ¬is_set g.occupancy 61 ∧ ¬is_set g.occupancy 62 then
      (let attacked := g.get_attacked_squares true
       if ¬is_set attacked 60 ∧ ¬is_set attacked 61 ∧ ¬is_set attacked 62 then
         [Move.new 60 62 false]
       else [])
    else []) ++
    (if ¬is_set g.occupancy 59 ∧ ¬is_set g.occupancy 58 ∧ ¬is_set g.occupancy 57 then
      (let attacked := g.get_attacked_squares true
       if ¬is_set attacked 60 ∧ ¬is_set attacked 59 ∧ ¬is_set attacked 58 then
         [Move.new 60 58 false]
       else [])
    else [])
  else []

/-- `ChessGame::update_move_container`: the sequence of moves pushed into
the container, in push order (the container itself only reorders). -/
def ChessGame.update_move_container (g : ChessGame) (white : Bool) : List Move :=
  g.knightMoves white ++ g.kingMoves white ++ g.pawnCaptureMoves white ++
    g.pawnPushMoves white ++
    g.slidingMoves (pieces_for_color g.whites g.rooks white) .Rook [0, 1, 2, 3] white ++
    g.slidingMoves (pieces_for_color g.whites g.bishops white) .Bishop [4, 5, 6, 7] white ++
    g.slidingMoves (pieces_for_color g.whites g.queens white) .Queen
      [0, 1, 2, 3, 4, 5, 6, 7] white ++
    (if white then g.whiteCastleMoves else []) ++
    (if !white then g.blackCastleMoves else [])

/-- `ChessGame::score` (`game.rs`): material in the source's order and
constants, times 20, plus the move-count difference (the source counts via
a `SimpleMovesContainer`, whose count is the number of pushes). -/
def ChessGame.score (g : ChessGame) : Int :=
  let material : Int :=
    (popcount (g.pawns &&& g.whites) : Int) * 1 +
      (popcount ((g.bishops ||| g.knights) &&& g.whites) : Int) * 3 +
      (popcount (g.rooks &&& g.whites) : Int) * 5 +
      (popcount (g.queens &&& g.whites) : Int) * 10 +
      (popcount (g.kings &&& g.whites) : Int) * 1000 -
      (popcount ((g.bishops ||| g.knights) &&& compl64 g.whites) : Int) * 3 -
      (popcount (g.pawns &&& compl64 g.whites) : Int) * 1 -
      (popcount (g.rooks &&& compl64 g.whites) : Int) * 5 -
      (popcount (g.queens &&& compl64 g.whites) : Int) * 10 -
      (popcount (g.kings &&& compl64 g.whites) : Int) * 1000
  material * 20 + ((g.update_move_container true).length : Int) -
    ((g.update_move_container false).length : Int)

/-- Fold `set_at!` over a list of squares (the constructors are sequences
of `set_at!` calls). -/
def bitsOf (l : List Int) : Nat := l.foldl set_at 0

/-- `GameConstructor::empty`. -/
def GameConstructor.empty : ChessGame := ⟨0, 0, 0, 0, 0, 0, 0, 0, 0⟩

/-- `GameConstructor::standard_game` (`game_constructor.rs`); the square
lists are the `pos_to_index(x, y) = x + 8 * y` values of the source's
`set_at!` calls, in source order. -/
def GameConstructor.standard_game : ChessGame :=
  { whites := bitsOf [8, 9, 10, 11, 12, 13, 14, 15, 4, 3, 0, 7, 2, 5, 1, 6]
    pawns := bitsOf [8, 9, 10, 11, 12, 13, 14, 15, 48, 49, 50, 51, 52, 53, 54, 55]
    bishops := bitsOf [2, 5, 58, 61]
    knights := bitsOf [1, 6, 57, 62]
    rooks := bitsOf [0, 7, 56, 63]
    queens := bitsOf [3, 59]
    kings := bitsOf [4, 60]
    flags := 0
    en_passant_target := 0 }

/-- `SearchResult` (`engine.rs`). -/
structure SearchResult where
  score : Int
  best_move : Option Move
deriving DecidableEq

/-- `AlphaBetaEngine` (`alpha_beta.rs`): search parameters plus the
terminal-score cache (`HashMap<ChessGame, ScoreType>`, modelled as an
association list queried by position equality) and the killer-move table
(`HashMap<usize, Vec<Move>>`). -/
structure AlphaBetaEngine where
  depth : Nat
  extra_depth : Nat
  transposition_table : List (ChessGame × Int)
  killer_moves : List (Nat × List Move)
deriving DecidableEq

/-- Association-list lookup for the terminal-score cache. -/
def ttLookup : List (ChessGame × Int) → ChessGame → Option Int
  | [], _ => none
  | kv :: rest, g => if kv.1 = g then some kv.2 else ttLookup rest g

/-- Association-list lookup for the killer-move table. -/
def killerLookup : List (Nat × List Move) → Nat → Option (List Move)
  | [], _ => none
  | kv :: rest, d => if kv.1 = d then some kv.2 else killerLookup rest d

/-- `self.killer_moves.get_mut(&depth).expect(..).push(m)`: append `m` to
the entry at ply `d`.  (If the key is absent the source panics; the model
leaves the table unchanged — unreachable after `reset_killer_moves`.) -/
def killerPush (l : List (Nat × List Move)) (d : Nat) (m : Move) :
    List (Nat × List Move) :=
  l.map (fun kv => if kv.1 = d then (kv.1, kv.2 ++ [m]) else kv)

def AlphaBetaEngine.pushKiller (eng : AlphaBetaEngine) (d : Nat) (m : Move) :
    AlphaBetaEngine :=
  { eng with killer_moves := killerPush eng.killer_moves d m }

/-- `AlphaBetaEngine::reset_killer_moves`: empty lists for plies
`0 .. depth + extra_depth`. -/
def AlphaBetaEngine.reset_killer_moves (eng : AlphaBetaEngine) : AlphaBetaEngine :=
  { eng with
    killer_moves := (List.range (eng.depth + eng.extra_depth)).map (fun i => (i, [])) }

/-- The terminal test at the head of `alpha_beta_search`, in source order:
`(!cap && depth >= self.depth) || (cap && depth >= self.depth + self.extra_depth)
 || game.is_finished()`. -/
def isTerminalSearchNode (eng : AlphaBetaEngine) (g : ChessGame) (d : Nat)
    (cap : Bool) : Bool :=
  (!cap && decide (eng.depth ≤ d)) ||
    (cap && decide (eng.depth + eng.extra_depth ≤ d)) || g.is_finished

/-- The terminal return of `alpha_beta_search`:
`self.transposition_table.entry(game).or_insert_with(|| game.score())`,
best move `None`. -/
def terminalResult (eng : AlphaBetaEngine) (g : ChessGame) :
    SearchResult × AlphaBetaEngine :=
  match ttLookup eng.transposition_table g with
  | some s => (⟨s, none⟩, eng)
  | none =>
    (⟨g.score, none⟩,
      { eng with transposition_table := (g, g.score) :: eng.transposition_table })

def I64_MIN : Int := -9223372036854775808
def I64_MAX : Int := 9223372036854775807

/-- Extract a maximal-quality move from the container contents.
The source container is a `std::collections::BinaryHeap<Move>` ordered by
the spec's quality ranking (the `Ord` impl lives in the missing `moves.rs`).
The heap's order among equal-quality moves is internal to the standard
library; this model pops the earliest-pushed maximal element. -/
def extractMax : List Move → Option (Move × List Move)
  | [] => none
  | m :: rest =>
    match extractMax rest with
    | none => some (m, [])
    | some (m', rest') =>
      if m.quality.rank < m'.quality.rank then some (m', m :: rest')
      else some (m, rest)

def drainAux : Nat → List Move → List Move
  | 0, _ => []
  | n + 1, l =>
    match extractMax l with
    | none => []
    | some (m, rest) => m :: drainAux n rest

/-- The pop sequence of the move container: repeated `pop_next_move` until
empty. -/
def drain (l : List Move) : List Move := drainAux l.length l

/-- The move loop of `alpha_beta_search`.  `recurse` is the recursive
search call for the child node (already at ply `d + 1` with no seed move);
the remaining arguments are the pending pops, the window, the running best
score and move, and the engine state.  White: best/alpha update, then
killer-push and break on `best_score >= beta`.  Black: best/beta update,
then break (without any killer push) on `best_score <= alpha`. -/
def abLoop
    (recurse : AlphaBetaEngine → ChessGame → Bool → Int → Int → Bool →
      SearchResult × AlphaBetaEngine)
    (g : ChessGame) (white : Bool) (d : Nat) :
    List Move → Int → Int → Int → Option Move → AlphaBetaEngine →
      SearchResult × AlphaBetaEngine
  | [], _, _, score, best, eng => (⟨score, best⟩, eng)
  | m :: rest, a, b, score, best, eng =>
    let res := recurse eng (g.apply_move_unsafe m) (!white) a b m.is_capture
    let eng1 := res.2
    if white then
      let score' := if score < res.1.score then res.1.score else score
      let best' := if score < res.1.score then some m else best
      let a' := max a score'
      if b ≤ score' then (⟨score', best'⟩, eng1.pushKiller d m)
      else abLoop recurse g white d rest a' b score' best' eng1
    else
      let score' := if res.1.score < score then res.1.score else score
      let best' := if res.1.score < score then some m else best
      let b' := min b score'
      if score' ≤ a then (⟨score', best'⟩, eng1)
      else abLoop recurse g white d rest a b' score' best' eng1

/-- The contents of the `SmartMoveContainer` before the move loop: the
generator's pushes, then the optional seed move retagged `Principal`
(`set_first_move`), then up to two killer moves for this ply retagged
`KillerMove` (`add_killer_move`). -/
def containerContents (eng : AlphaBetaEngine) (g : ChessGame) (white : Bool)
    (d : Nat) (first : Option Move) : List Move :=
  let pushes := g.update_move_container white
  let withFirst :=
    match first with
    | some m => pushes ++ [m.set_quality .Principal]
    | none => pushes
  withFirst ++
    (((killerLookup eng.killer_moves d).getD []).take 2).map
      (fun m => m.set_quality .KillerMove)

/-- `AlphaBetaEngine::alpha_beta_search`.

The search always terminates because each recursive call increases the ply
and every call at ply `depth + extra_depth` is terminal; `fuel` makes that
measure explicit (callers pass `depth + extra_depth`, which is sufficient
from ply 0, so the fuel-exhausted branch is unreachable). -/
def alphaBetaSearch : Nat → AlphaBetaEngine → ChessGame → Bool → Nat → Int →
    Int → Bool → Option Move → SearchResult × AlphaBetaEngine
  | 0, eng, g, white, d, _, _, cap, _ =>
    if isTerminalSearchNode eng g d cap then terminalResult eng g
    else (⟨if white then I64_MIN else I64_MAX, none⟩, eng)
  | fuel + 1, eng, g, white, d, a, b, cap, first =>
    if isTerminalSearchNode eng g d cap then terminalResult eng g
    else
      abLoop
        (fun e g' w a' b' c => alphaBetaSearch fuel e g' w (d + 1) a' b' c none)
        g white d (drain (containerContents eng g white d first)) a b
        (if white then I64_MIN else I64_MAX) none eng

/-- `Engine::find_best_move` for `AlphaBetaEngine`: reset the killer table
and search from ply 0 with the `(i32::MIN, i32::MAX)` window. -/
def AlphaBetaEngine.find_best_move (eng : AlphaBetaEngine) (g : ChessGame)
    (white : Bool) : SearchResult × AlphaBetaEngine :=
  let eng := eng.reset_killer_moves
  alphaBetaSearch (eng.depth + eng.extra_depth) eng g white 0
    (-2147483648) 2147483647 false none

/-- The material difference exactly as the claim words it: per piece type,
the popcount of the piece bitboard intersected with the color mask, weighted
pawn=1, bishop=3, knight=3, rook=5, queen=10, king=1000, white minus black.
This is the claim-side formulation, to be compared with the source's
`ChessGame::score` accumulation. -/
def specMaterialDiff (g : ChessGame) : Int :=
  let side : Nat → Int := fun mask =>
    (popcount (g.pawns &&& mask) : Int) * 1 +
      (popcount (g.bishops &&& mask) : Int) * 3 +
      (popcount (g.knights &&& mask) : Int) * 3 +
      (popcount (g.rooks &&& mask) : Int) * 5 +
      (popcount (g.queens &&& mask) : Int) * 10 +
      (popcount (g.kings &&& mask) : Int) * 1000
  side g.whites - side (compl64 g.whites)

/-- Position with a white pawn on e4 (28), kings on a1/a8, and the
en-passant board flagging the empty square d5 (35). -/
def gEnPassant : ChessGame :=
  ⟨bitsOf [0, 28], bitsOf [28], 0, 0, 0, 0, bitsOf [0, 56], 0, bitsOf [35]⟩

/-- Position with the white king on e1 (4) and the black king on e8 (60)
and no rooks at all. -/
def gNoRook : ChessGame := ⟨bitsOf [4], 0, 0, 0, 0, 0, bitsOf [4, 60], 0, 0⟩

/-- Position with white king a1 (0) and pawn e4 (28), black king a8 (56)
and pawn d5 (35); black to move can capture e4. -/
def gBlackCut : ChessGame :=
  ⟨bitsOf [0, 28], bitsOf [28, 35], 0, 0, 0, 0, bitsOf [0, 56], 0, 0⟩

/-- Depth-1 engine with an initialized (empty) killer slot for ply 0. -/
def engCut : AlphaBetaEngine := ⟨1, 0, [], [(0, [])]⟩

/-- A position with no kings at all: `is_finished` holds. -/
def gKingless : ChessGame := ⟨0, 0, 0, 0, 0, 0, 0, 0, 0⟩

/-- Small engine used by witnesses. -/
def engOne : AlphaBetaEngine := ⟨1, 0, [], []⟩

/-- A recursion stub returning a fixed score and an unchanged engine; used
to exercise one iteration of the move loop in witnesses. -/
def constRecurse (s : Int) :
    AlphaBetaEngine → ChessGame → Bool → Int → Int → Bool →
      SearchResult × AlphaBetaEngine :=
  fun e _ _ _ _ _ => (⟨s, none⟩, e)

/-! ## Helper lemmas -/

theorem testBit_and_eq_false {x y : Nat} (h : x &&& y = 0) (i : Nat) :
    (x.testBit i && y.testBit i) = false := by
  have hh := congrArg (fun n => n.testBit i) h
  simpa [Nat.testBit_land] using hh

theorem popcount_lor_disjoint {x y : Nat} (h : x &&& y = 0) :
    popcount (x ||| y) = popcount x + popcount y := by
  unfold popcount
  rw [← Finset.sum_add_distrib]
  refine Finset.sum_congr rfl (fun i _ => ?_)
  have hb := testBit_and_eq_false h i
  rw [Nat.testBit_lor]
  cases hx : x.testBit i <;> cases hy : y.testBit i <;> simp_all

theorem lor_and_right (x y z : Nat) : (x ||| y) &&& z = (x &&& z) ||| (y &&& z) := by
  apply Nat.eq_of_testBit_eq
  intro i
  simp only [Nat.testBit_land, Nat.testBit_lor]
  cases x.testBit i <;> cases y.testBit i <;> cases z.testBit i <;> rfl

theorem and_pair_disjoint {b n : Nat} (w : Nat) (h : b &&& n = 0) :
    (b &&& w) &&& (n &&& w) = 0 := by
  apply Nat.eq_of_testBit_eq
  intro i
  have hb := testBit_and_eq_false h i
  simp only [Nat.testBit_land, Nat.zero_testBit]
  cases hbt : b.testBit i <;> cases hnt : n.testBit i <;> simp_all

theorem is_set_lor (a b : Nat) (i : Int) :
    is_set (a ||| b) i = (is_set a i || is_set b i) := by
  unfold is_set
  rw [Nat.testBit_lor]
  cases decide (0 ≤ i) <;> cases a.testBit i.toNat <;> cases b.testBit i.toNat <;> rfl

theorem type_at_none_of_no_piece {g : ChessGame} {i : Int}
    (h : g.has_piece_at i = false) : g.type_at_index i = none := by
  unfold ChessGame.has_piece_at at h
  simp only [is_set_lor, Bool.or_eq_false_iff] at h
  obtain ⟨⟨⟨⟨⟨hp, hb⟩, hn⟩, hr⟩, hq⟩, hk⟩ := h
  unfold ChessGame.type_at_index
  simp [hp, hb, hn, hr, hq, hk]

theorem is_finished_iff (g : ChessGame) :
    g.is_finished = true ↔ popcount g.kings ≠ 2 := by
  simp only [ChessGame.is_finished, bne_iff_ne]

theorem killerLookup_killerPush (l : List (Nat × List Move)) (d : Nat) (m : Move) :
    killerLookup (killerPush l d m) d = (killerLookup l d).map (fun v => v ++ [m]) := by
  induction l with
  | nil => rfl
  | cons kv rest ih =>
    by_cases hk : kv.1 = d
    · simp [killerPush, killerLookup, hk]
    · simpa [killerPush, killerLookup, hk] using ih

/-! ## C3 — static material values -/

/-- C3 counterexample: the claim says the static material value of a queen
is 10 (and of a king 1000); `Type::score` in the source returns 9 for a
queen and 10000 for a king. -/
theorem type_score_claim_cex :
    PieceType.score .Queen = 9 ∧ ¬PieceType.score .Queen = 10 ∧
      PieceType.score .King = 10000 ∧ ¬PieceType.score .King = 1000 := by
  decide

/-- C3 (amended): the static per-piece material value function returns 1
for a pawn, 3 for a bishop, 3 for a knight, 5 for a rook, 9 for a queen and
10000 for a king, and capture classification (MVV-LVA stamping) compares
exactly these attacker/victim values: smaller attacker gives GoodCapture,
equal values EqualCapture, larger attacker LowCapture. -/
theorem type_score_values :
    PieceType.score .Pawn = 1 ∧ PieceType.score .Bishop = 3 ∧
      PieceType.score .Knight = 3 ∧ PieceType.score .Rook = 5 ∧
      PieceType.score .Queen = 9 ∧ PieceType.score .King = 10000 ∧
      (∀ (m : Move) (a v : PieceType),
        (m.set_quality_from_scores a v).quality =
          if a.score < v.score then .GoodCapture
          else if a.score = v.score then .EqualCapture
          else .LowCapture) ∧
      ((Move.new 0 9 true).set_quality_from_scores .Pawn .Queen).quality =
        .GoodCapture ∧
      ((Move.new 0 9 true).set_quality_from_scores .Knight .Bishop).quality =
        .EqualCapture ∧
      ((Move.new 0 9 true).set_quality_from_scores .King .Queen).quality =
        .LowCapture := by
  refine ⟨rfl, rfl, rfl, rfl, rfl, rfl, ?_, rfl, rfl, rfl⟩
  intro m a v
  cases a <;> cases v <;> rfl

/-! ## C7 — safe move application -/

/-- C7: for every position and move, when the geometric validity check
fails `apply_move_safe` reports `false` and returns the position with all
eight 64-bit fields unchanged; when it passes it reports `true` and returns
the position with the move applied. -/
theorem apply_move_safe_spec :
    ∀ (g : ChessGame) (m : Move),
      (g.is_move_valid m = false →
        g.apply_move_safe m = (false, g) ∧
          (g.apply_move_safe m).2.whites = g.whites ∧
          (g.apply_move_safe m).2.pawns = g.pawns ∧
          (g.apply_move_safe m).2.bishops = g.bishops ∧
          (g.apply_move_safe m).2.knights = g.knights ∧
          (g.apply_move_safe m).2.rooks = g.rooks ∧
          (g.apply_move_safe m).2.queens = g.queens ∧
          (g.apply_move_safe m).2.kings = g.kings ∧
          (g.apply_move_safe m).2.flags = g.flags) ∧
      (g.is_move_valid m = true →
        g.apply_move_safe m = (true, g.apply_move_unsafe m)) := by
  intro g m
  constructor <;> intro h <;> simp [ChessGame.apply_move_safe, h]

/-- C7 witness: on the standard position, the move 10 to 11 (a white pawn
pushed sideways by the wrong color) fails the check and leaves the position
unchanged, while e2-e4 (12 to 28) passes and is applied. -/
theorem apply_move_safe_spec_witness :
    GameConstructor.standard_game.is_move_valid (Move.new 10 11 false) = false ∧
      GameConstructor.standard_game.apply_move_safe (Move.new 10 11 false) =
        (false, GameConstructor.standard_game) ∧
      GameConstructor.standard_game.is_move_valid (Move.new 12 28 true) = true ∧
      GameConstructor.standard_game.apply_move_safe (Move.new 12 28 true) =
        (true, GameConstructor.standard_game.apply_move_unsafe (Move.new 12 28 true)) :=
  ⟨by decide,
    ((apply_move_safe_spec GameConstructor.standard_game (Move.new 10 11 false)).1
      (by decide)).1,
    by decide,
    (apply_move_safe_spec GameConstructor.standard_game (Move.new 12 28 true)).2
      (by decide)⟩

/-! ## C9 — frame property of `apply_move_unsafe` -/

/-- C9: if no piece occupies the source square of a move, `apply_move_unsafe`
leaves the position completely unchanged (in particular the capture-clearing
at the destination never happens). -/
theorem apply_move_unsafe_frame :
    ∀ (g : ChessGame) (m : Move),
      g.has_piece_at m.fromSq = false → g.apply_move_unsafe m = g := by
  intro g m h
  unfold ChessGame.apply_move_unsafe
  rw [type_at_none_of_no_piece h]

/-- C9 witness: applying a move out of the empty square e4 (28) on the
standard position changes nothing. -/
theorem apply_move_unsafe_frame_witness :
    GameConstructor.standard_game.has_piece_at 28 = false ∧
      GameConstructor.standard_game.apply_move_unsafe (Move.new 28 36 true) =
        GameConstructor.standard_game :=
  ⟨by decide,
    apply_move_unsafe_frame GameConstructor.standard_game (Move.new 28 36 true)
      (by decide)⟩

/-! ## C10 — short castle emitted without a rook on h1 -/

/-- C10: a position with no rook on h1 for which the generator still emits
the white short castle e1-g1 — while the safe-apply validity path rejects
the very same move because it requires the rook. -/
theorem short_castle_without_rook :
    gNoRook.rooks.testBit 7 = false ∧
      Move.new 4 6 true ∈ gNoRook.update_move_container true ∧
      gNoRook.is_move_valid (Move.new 4 6 true) = false := by
  decide

/-! ## C1 — terminal behaviour of `alpha_beta_search` -/

/-- C1: a call to `alpha_beta_search` is treated as terminal exactly when
the kings' popcount differs from 2, or the last move was not a capture and
the ply has reached the depth limit, or it was a capture and the ply has
reached depth limit plus extra depth; in that case the call returns no best
move and the terminal-score-cache entry for the position, inserting
`position.score()` if absent. -/
theorem alpha_beta_terminal_spec :
    ∀ (eng : AlphaBetaEngine) (g : ChessGame) (white : Bool) (d : Nat)
      (a b : Int) (cap : Bool) (first : Option Move) (fuel : Nat),
      (isTerminalSearchNode eng g d cap = true ↔
        (popcount g.kings ≠ 2 ∨ (cap = false ∧ eng.depth ≤ d) ∨
          (cap = true ∧ eng.depth + eng.extra_depth ≤ d))) ∧
      (isTerminalSearchNode eng g d cap = true →
        alphaBetaSearch fuel eng g white d a b cap first =
          match ttLookup eng.transposition_table g with
          | some s => (⟨s, none⟩, eng)
          | none =>
            (⟨g.score, none⟩,
              { eng with transposition_table :=
                  (g, g.score) :: eng.transposition_table })) := by
  intro eng g white d a b cap first fuel
  constructor
  · unfold isTerminalSearchNode
    cases cap <;>
      simp only [Bool.not_false, Bool.not_true, Bool.true_and, Bool.false_and,
        Bool.true_or, Bool.false_or, Bool.or_eq_true, Bool.and_eq_true,
        decide_eq_true_eq, is_finished_iff] <;>
      generalize popcount g.kings = k <;>
      tauto
  · intro h
    cases fuel <;> (rw [alphaBetaSearch, if_pos h]; rfl)

/-- C1 witness: a kingless position at ply 0 of a depth-1 engine is
terminal; with an empty cache the search returns the freshly inserted
static score and no best move. -/
theorem alpha_beta_terminal_spec_witness :
    isTerminalSearchNode engOne gKingless 0 false = true ∧
      alphaBetaSearch 0 engOne gKingless true 0 0 0 false none =
        (⟨gKingless.score, none⟩,
          { engOne with transposition_table := [(gKingless, gKingless.score)] }) :=
  ⟨by decide, by
    have h :=
      (alpha_beta_terminal_spec engOne gKingless true 0 0 0 false none 0).2 (by decide)
    exact h.trans (by decide)⟩

/-! ## C4 — killer moves at cutoffs -/

/-- C4 counterexample: a concrete depth-1 search where black is to move and
an alpha-cutoff occurs on the very first move (the capture d5xe4), yet the
killer-move table stays untouched — refuting the claim that black
symmetrically pushes the cutoff move onto `killer_moves`.  The cutoff is
visible: the returned score lies below alpha, only one child position was
inserted into the cache although black has several moves, and the
killer slot for ply 0 is still empty. -/
theorem killer_move_black_cutoff_cex :
    (alphaBetaSearch 1 engCut gBlackCut false 0 1000000000 2000000000 false
        none).1.best_move =
        some ((Move.new 35 28 false).set_quality .GoodCapture) ∧
      (alphaBetaSearch 1 engCut gBlackCut false 0 1000000000 2000000000 false
        none).1.score ≤ 1000000000 ∧
      (alphaBetaSearch 1 engCut gBlackCut false 0 1000000000 2000000000 false
        none).2.killer_moves = [(0, [])] ∧
      (alphaBetaSearch 1 engCut gBlackCut false 0 1000000000 2000000000 false
        none).2.transposition_table.length = 1 ∧
      2 ≤ (gBlackCut.update_move_container false).length := by
  decide

/-- C4 (amended): in the move loop, when white to move reaches
`best_score >= beta` the cutoff move is pushed onto `killer_moves` at the
current ply and the loop breaks; when black to move reaches
`best_score <= alpha` the loop breaks without touching `killer_moves`. -/
theorem killer_move_cutoff_spec :
    ∀ (recurse : AlphaBetaEngine → ChessGame → Bool → Int → Int → Bool →
        SearchResult × AlphaBetaEngine)
      (g : ChessGame) (d : Nat) (m : Move) (rest : List Move)
      (a b score : Int) (best : Option Move) (eng : AlphaBetaEngine),
      (∀ (res : SearchResult × AlphaBetaEngine) (score' : Int) (best' : Option Move),
        recurse eng (g.apply_move_unsafe m) false a b m.is_capture = res →
        score' = (if score < res.1.score then res.1.score else score) →
        best' = (if score < res.1.score then some m else best) →
        b ≤ score' →
          abLoop recurse g true d (m :: rest) a b score best eng =
            (⟨score', best'⟩, res.2.pushKiller d m) ∧
          killerLookup (res.2.pushKiller d m).killer_moves d =
            (killerLookup res.2.killer_moves d).map (fun v => v ++ [m])) ∧
      (∀ (res : SearchResult × AlphaBetaEngine) (score' : Int) (best' : Option Move),
        recurse eng (g.apply_move_unsafe m) true a b m.is_capture = res →
        score' = (if res.1.score < score then res.1.score else score) →
        best' = (if res.1.score < score then some m else best) →
        score' ≤ a →
          abLoop recurse g false d (m :: rest) a b score best eng =
            (⟨score', best'⟩, res.2)) := by
  intro recurse g d m rest a b score best eng
  constructor
  · intro res score' best' hres hs hb hcut
    subst hres; subst hs; subst hb
    refine ⟨?_, ?_⟩
    · simp only [abLoop, Bool.not_true, if_true]
      rw [if_pos hcut]
    · simp [AlphaBetaEngine.pushKiller, killerLookup_killerPush]
  · intro res score' best' hres hs hb hcut
    subst hres; subst hs; subst hb
    simp only [abLoop, Bool.not_false]
    rw [if_neg Bool.false_ne_true, if_pos hcut]

/-- C4 witness: one loop iteration with a stubbed child search; white
cutoff pushes the move onto the ply-0 killer entry, black cutoff returns
with the engine exactly as the child left it. -/
theorem killer_move_cutoff_spec_witness :
    ((3 : Int) ≤ 5 ∧
      abLoop (constRecurse 5) GameConstructor.empty true 0 [Move.new 0 1 true]
          0 3 0 none engOne =
        (⟨5, some (Move.new 0 1 true)⟩, engOne.pushKiller 0 (Move.new 0 1 true))) ∧
    ((5 : Int) ≤ 10 ∧
      abLoop (constRecurse 5) GameConstructor.empty false 0 [Move.new 0 1 false]
          10 20 7 none engOne =
        (⟨5, some (Move.new 0 1 false)⟩, engOne)) := by
  refine ⟨⟨by norm_num, ?_⟩, ⟨by norm_num, ?_⟩⟩
  · exact ((killer_move_cutoff_spec (constRecurse 5) GameConstructor.empty 0
      (Move.new 0 1 true) [] 0 3 0 none engOne).1
      (⟨5, none⟩, engOne) 5 (some (Move.new 0 1 true)) rfl (by decide) (by decide)
      (by decide)).1
  · exact (killer_move_cutoff_spec (constRecurse 5) GameConstructor.empty 0
      (Move.new 0 1 false) [] 10 20 7 none engOne).2
      (⟨5, none⟩, engOne) 5 (some (Move.new 0 1 false)) rfl (by decide) (by decide)
      (by decide)

/-! ## C2 — evaluation decomposition and the standard position -/

/-- C2: for every position whose bishop and knight boards are disjoint (a
data-model invariant; the source counts `bishops | knights` in a single
popcount), `score()` equals 20 times the per-piece material difference of
the claim plus the number of generated white moves minus the number of
generated black moves; and the standard starting position scores exactly 0. -/
theorem score_decomposition :
    (∀ g : ChessGame, g.bishops &&& g.knights = 0 →
      g.score = 20 * specMaterialDiff g +
        ((g.update_move_container true).length : Int) -
        ((g.update_move_container false).length : Int)) ∧
    GameConstructor.standard_game.score = 0 := by
  constructor
  · intro g h
    have h1 : popcount ((g.bishops ||| g.knights) &&& g.whites)
        = popcount (g.bishops &&& g.whites) + popcount (g.knights &&& g.whites) := by
      rw [lor_and_right, popcount_lor_disjoint (and_pair_disjoint _ h)]
    have h2 : popcount ((g.bishops ||| g.knights) &&& compl64 g.whites)
        = popcount (g.bishops &&& compl64 g.whites) +
            popcount (g.knights &&& compl64 g.whites) := by
      rw [lor_and_right, popcount_lor_disjoint (and_pair_disjoint _ h)]
    simp only [ChessGame.score, specMaterialDiff]
    rw [h1, h2]
    push_cast
    ring
  · decide

/-- C2 witness: the standard position satisfies the disjointness hypothesis
and the decomposition. -/
theorem score_decomposition_witness :
    GameConstructor.standard_game.bishops &&& GameConstructor.standard_game.knights = 0 ∧
      GameConstructor.standard_game.score =
        20 * specMaterialDiff GameConstructor.standard_game +
          ((GameConstructor.standard_game.update_move_container true).length : Int) -
          ((GameConstructor.standard_game.update_move_container false).length : Int) :=
  ⟨by decide, score_decomposition.1 GameConstructor.standard_game (by decide)⟩

/-! ## C6 — castling generation conditions -/

/-- C6: the castle phase of the generator emits the white short castle
e1-g1 exactly when the white king-moved flag is clear, f1 and g1 are empty,
and e1, f1, g1 are not attacked by black; the white long castle e1-c1
exactly when the flag is clear, b1, c1, d1 are empty, and e1, d1, c1 are
not attacked (the rook corner is never among the checked squares);
symmetrically for black on rank 8. -/
theorem castle_generation_spec :
    ∀ g : ChessGame,
      (Move.new 4 6 true ∈ g.whiteCastleMoves ↔
        (is_set g.flags FLAG_WK_MOVED = false ∧
          is_set g.occupancy 5 = false ∧ is_set g.occupancy 6 = false ∧
          is_set (g.get_attacked_squares false) 4 = false ∧
          is_set (g.get_attacked_squares false) 5 = false ∧
          is_set (g.get_attacked_squares false) 6 = false)) ∧
      (Move.new 4 2 true ∈ g.whiteCastleMoves ↔
        (is_set g.flags FLAG_WK_MOVED = false ∧
          is_set g.occupancy 3 = false ∧ is_set g.occupancy 2 = false ∧
          is_set g.occupancy 1 = false ∧
          is_set (g.get_attacked_squares false) 4 = false ∧
          is_set (g.get_attacked_squares false) 3 = false ∧
          is_set (g.get_attacked_squares false) 2 = false)) ∧
      (Move.new 60 62 false ∈ g.blackCastleMoves ↔
        (is_set g.flags FLAG_BK_MOVED = false ∧
          is_set g.occupancy 61 = false ∧ is_set g.occupancy 62 = false ∧
          is_set (g.get_attacked_squares true) 60 = false ∧
          is_set (g.get_attacked_squares true) 61 = false ∧
          is_set (g.get_attacked_squares true) 62 = false)) ∧
      (Move.new 60 58 false ∈ g.blackCastleMoves ↔
        (is_set g.flags FLAG_BK_MOVED = false ∧
          is_set g.occupancy 59 = false ∧ is_set g.occupancy 58 = false ∧
          is_set g.occupancy 57 = false ∧
          is_set (g.get_attacked_squares true) 60 = false ∧
          is_set (g.get_attacked_squares true) 59 = false ∧
          is_set (g.get_attacked_squares true) 58 = false)) := by
  intro g
  refine ⟨?_, ?_, ?_, ?_⟩ <;>
    simp only [ChessGame.whiteCastleMoves, ChessGame.blackCastleMoves] <;>
    split_ifs <;>
    simp_all [Move.new, Bool.not_eq_true]

/-! ## C5 — pawn diagonal moves -/

/-- C5 counterexample: on a position whose en-passant board flags the empty
square d5 (35), the generator emits the diagonal pawn move e4-d5 as a
`GoodCapture` although no piece (in particular no opponent piece) stands on
the target square — refuting the claimed "only if the target holds an
opponent". -/
theorem pawn_diagonal_claim_cex :
    (Move.new 28 35 true).set_quality .GoodCapture ∈
        gEnPassant.update_move_container true ∧
      gEnPassant.has_piece_at 35 = false := by
  decide

/-- C5 (amended): the pawn attack phase emits a move from a pawn of the
side to a square of that pawn's attack mask if and only if the target
either holds an opponent piece, or is empty and flagged in the en-passant
target board; and every emitted diagonal pawn move is stamped
`GoodCapture`. -/
theorem pawn_capture_phase_spec :
    ∀ (g : ChessGame) (white : Bool),
      (∀ m ∈ g.pawnCaptureMoves white, m.quality = .GoodCapture) ∧
      (∀ f t : Nat, f < 64 → t < 64 →
        ((Move.new f t white).set_quality .GoodCapture ∈ g.pawnCaptureMoves white ↔
          ((pieces_for_color g.whites g.pawns white).testBit f ∧
            (pawnAttackMask white f).testBit t ∧
            ((is_set g.occupancy t = true ∧ ¬is_set g.whites t = white) ∨
              (is_set g.occupancy t = false ∧
                is_set g.en_passant_target t = true))))) := by
  intro g white
  constructor
  · intro m hm
    simp only [ChessGame.pawnCaptureMoves, List.mem_flatMap] at hm
    obtain ⟨f, hf, t, ht, hmem⟩ := hm
    split at hmem
    · simp only [List.mem_singleton] at hmem
      subst hmem
      rfl
    · split at hmem
      · simp only [List.mem_singleton] at hmem
        subst hmem
        rfl
      · simp at hmem
  · intro f t hf ht
    constructor
    · intro hmem
      simp only [ChessGame.pawnCaptureMoves, List.mem_flatMap, bitIndices,
        List.mem_filter, List.mem_range] at hmem
      obtain ⟨f', ⟨hf64, hfbit⟩, t', ⟨ht64, htbit⟩, hin⟩ := hmem
      split at hin
      case isTrue hc =>
        simp only [List.mem_singleton, Move.new, Move.set_quality,
          Move.mk.injEq] at hin
        obtain ⟨hfe, hte, -, -⟩ := hin
        have hfe' : f = f' := by exact_mod_cast hfe
        have hte' : t = t' := by exact_mod_cast hte
        subst hfe'; subst hte'
        refine ⟨hfbit, htbit, Or.inl ?_⟩
        simp only [Bool.and_eq_true, bne_iff_ne, ne_eq] at hc
        exact ⟨hc.1, hc.2⟩
      case isFalse hc =>
        split at hin
        case isTrue hc2 =>
          simp only [List.mem_singleton, Move.new, Move.set_quality,
            Move.mk.injEq] at hin
          obtain ⟨hfe, hte, -, -⟩ := hin
          have hfe' : f = f' := by exact_mod_cast hfe
          have hte' : t = t' := by exact_mod_cast hte
          subst hfe'; subst hte'
          refine ⟨hfbit, htbit, Or.inr ?_⟩
          simp only [Bool.and_eq_true, Bool.not_eq_true'] at hc2
          exact ⟨hc2.1, hc2.2⟩
        case isFalse => simp at hin
    · rintro ⟨hfbit, htbit, hcond⟩
      simp only [ChessGame.pawnCaptureMoves, List.mem_flatMap, bitIndices,
        List.mem_filter, List.mem_range]
      refine ⟨f, ⟨hf, hfbit⟩, t, ⟨ht, htbit⟩, ?_⟩
      rcases hcond with ⟨hocc, hcol⟩ | ⟨hocc, hep⟩
      · rw [if_pos]
        · simp
        · simp only [Bool.and_eq_true, bne_iff_ne, ne_eq]
          exact ⟨hocc, hcol⟩
      · rw [if_neg, if_pos]
        · simp
        · simp only [Bool.and_eq_true, Bool.not_eq_true']
          exact ⟨hocc, hep⟩
        · simp [hocc]

/-- C5 witness: the en-passant position satisfies the amended
characterization at the pawn e4 (28) and target d5 (35). -/
theorem pawn_capture_phase_spec_witness :
    (Move.new 28 35 true).set_quality .GoodCapture ∈
        gEnPassant.pawnCaptureMoves true ∧
      ((Move.new 28 35 true).set_quality .GoodCapture).quality =
        MoveQuality.GoodCapture := by
  have hmem :=
    ((pawn_capture_phase_spec gEnPassant true).2 28 35 (by decide) (by decide)).mpr
      (by decide)
  exact ⟨hmem, (pawn_capture_phase_spec gEnPassant true).1 _ hmem⟩

end Chess
